import Mathlib

/-!
Verification of the `uln28byj48` stepper-motor driver (`28byj-48.go`).

The Go source is shallowly embedded here:
* machine integers (`int64`, `int`) become `Int`; Go's truncating `%` on
  integers becomes `Int.tmod`;
* `float64` arithmetic in the speed / position formulas becomes exact `ℚ`
  arithmetic, and Go's float-to-`int64` conversion (truncation toward zero)
  becomes `truncQ`;
* `time.Duration` values are integers counted in nanoseconds
  (`time.Microsecond = 1000`);
* the mutex-guarded fields of the `uln28byj` struct become a `Motor` record,
  and each method becomes a function from `Motor` to `Motor` together with
  the list of pin patterns it writes (the four GPIO pins are an external
  capability; writes are modelled as succeeding).
-/

namespace Uln28byj48

/-- A switching signal for the four uln2003 input pins (in1, in2, in3, in4). -/
abbrev PinPattern := Bool × Bool × Bool × Bool

/-- The all-off pattern `[4]bool{false, false, false, false}` written by `doStop`. -/
def allOff : PinPattern := (false, false, false, false)

/-- The `stepSequence` table from the source: the eight half-step switching
signals for the uln2003 pins. -/
def stepSequence : List PinPattern :=
  [ (false, false, false, true),
    (true,  false, false, true),
    (true,  false, false, false),
    (true,  true,  false, false),
    (false, true,  false, false),
    (false, true,  true,  false),
    (false, false, true,  false),
    (false, false, true,  true) ]

/-- `minDelayBetweenTicks = 100 * time.Microsecond`, in nanoseconds. -/
def minDelayBetweenTicks : Int := 100000

/-- `maxRPM = 15.0`, the max rpm of the 28byj-48 motor after gear reduction. -/
def maxRPM : ℚ := 15

/-- Go's conversion of a `float64` to `int64`: truncation toward zero
(here on exact rationals). -/
def truncQ (q : ℚ) : Int := if q < 0 then ⌈q⌉ else ⌊q⌋

/-- The mutable state of the `uln28byj` struct: `ticksPerRotation` (immutable
after construction), `stepPosition`, `targetStepPosition`, `stepperDelay`
(nanoseconds), and the last pattern written to the four pins. -/
structure Motor where
  ticksPerRotation : Int
  stepPosition : Int
  targetStepPosition : Int
  stepperDelay : Int
  pins : PinPattern

/-- The index computation inside `doStep`: Go's truncating `%` is `Int.tmod`.
`if m.stepPosition < 0 { 7 + stepPosition%8 } else { stepPosition%8 }`. -/
def nextStepSequence (stepPosition : Int) : Int :=
  if stepPosition < 0 then 7 + stepPosition.tmod 8
  else stepPosition.tmod 8

/-- The pin pattern `stepSequence[nextStepSequence]` written by a step that
lands on position `i` (the index is always in range, so the default is
never used). -/
def sequencePattern (i : Int) : PinPattern :=
  stepSequence.getD (nextStepSequence i).toNat allOff

/-- Modelled from the spec words for comparison with the source: the table
index `((i mod 8) + 8) mod 8` computed with true mathematical modulo
(Lean's `%` on `Int` with a positive modulus). -/
def specSequenceIndex (i : Int) : Int := (i % 8 + 8) % 8

/-- The pin pattern the spec says a step landing on position `i` writes. -/
def specSequencePattern (i : Int) : PinPattern :=
  stepSequence.getD (specSequenceIndex i).toNat allOff

/-- `setPins`: writes one pattern to the four pins.  Returns the new state and
the one-element trace of patterns written. -/
def setPins (m : Motor) (pins : PinPattern) : Motor × List PinPattern :=
  ({ m with pins := pins }, [pins])

/-- `doStop`: sets all the pins to 0 to stop the motor. -/
def doStop (m : Motor) : Motor × List PinPattern :=
  setPins m allOff

/-- `doStep`: advance `stepPosition` by `+1` (forward) or `-1`, then write the
pattern `stepSequence[nextStepSequence]` for the new position.  (The trailing
`time.Sleep(m.stepperDelay)` is real time and is not modelled.) -/
def doStep (m : Motor) (forward : Bool) : Motor × List PinPattern :=
  let m1 := { m with stepPosition :=
    if forward then m.stepPosition + 1 else m.stepPosition - 1 }
  setPins m1 (sequencePattern m1.stepPosition)

/-- One iteration of the `doRun` background loop, after the cancellation
check, with pin writes succeeding.  The `Bool` is `true` when the body
reaches the end of the `for` iteration (the goroutine keeps looping) and
would be `false` exactly when the body executes `return` (which, with
successful pin writes, never happens). -/
def runIteration (m : Motor) : (Motor × List PinPattern) × Bool :=
  if m.stepPosition = m.targetStepPosition then (doStop m, true)
  else (doStep m (decide (m.stepPosition < m.targetStepPosition)), true)

/-- `calcStepperDelay`: `time.Duration(int64((1/(|rpm|*ticks/60))*1000000)) *
time.Microsecond`, clamped below by `minDelayBetweenTicks`.  Result in
nanoseconds. -/
def calcStepperDelay (ticksPerRotation : Int) (rpm : ℚ) : Int :=
  let stepperDelay := truncQ (1 / (|rpm| * (ticksPerRotation : ℚ) / 60) * 1000000) * 1000
  if stepperDelay < minDelayBetweenTicks then minDelayBetweenTicks else stepperDelay

/-- `goMath`: computes the target step position and the stepper delay for a
`GoFor` request.  `math.Signbit x` on an exact rational is `decide (x < 0)`
(no negative zero exists in `ℚ`). -/
def goMath (m : Motor) (rpm revolutions : ℚ) : Int × Int :=
  let d : Int := if (decide (revolutions < 0)) != (decide (rpm < 0)) then -1 else 1
  let revolutionsAbs := |revolutions|
  let rpmSigned := |rpm| * (d : ℚ)
  let targetPosition := m.stepPosition + truncQ ((d : ℚ) * revolutionsAbs * (m.ticksPerRotation : ℚ))
  (targetPosition, calcStepperDelay m.ticksPerRotation rpmSigned)

/-- Modelled from the spec words for comparison with the source:
`direction = sign(revolutions) == sign(rpm) ? +1 : -1` where sign is the
float sign bit. -/
def specDirection (revolutions rpm : ℚ) : Int :=
  if (decide (revolutions < 0)) == (decide (rpm < 0)) then 1 else -1

/-- `Stop`: cancels the run loop (external), then sets
`targetStepPosition = stepPosition`.  It writes no pins itself. -/
def stopCmd (m : Motor) : Motor × List PinPattern :=
  ({ m with targetStepPosition := m.stepPosition }, [])

/-- `GoFor`, at the level of the motor state: `motor.CheckSpeed` (an external
rdk helper, modelled from its documented contract and the spec) yields the
zero-RPM error exactly when `rpm = 0`, in which case `GoFor` returns
`m.Stop(...)`; when `|rpm|` exceeds `maxRPM` the rpm is clamped to
`maxRPM * GetSign(rpm)`; otherwise the request proceeds via `goMath` and the
target and delay are committed.  The `Option String` is the returned error
(`nil` becomes `none`); the blocking wait for completion is concurrency and
is not part of the state transition. -/
def goForCmd (m : Motor) (rpm revolutions : ℚ) : (Motor × List PinPattern) × Option String :=
  if rpm = 0 then (stopCmd m, none)
  else
    let rpmClamped := if maxRPM < |rpm| then maxRPM * (if rpm < 0 then -1 else 1) else rpm
    let td := goMath m rpmClamped revolutions
    (({ m with targetStepPosition := td.1, stepperDelay := td.2 }, []), none)

/-- `ResetZeroPosition`: `newPosition = int64(-1 * offset * ticksPerRotation)`,
then `Stop`, then both `stepPosition` and `targetStepPosition` are set to
`newPosition`.  The trace of pin writes is that of `Stop`, that is none. -/
def resetZeroPosition (m : Motor) (offset : ℚ) : Motor × List PinPattern :=
  let newPosition := truncQ (-1 * offset * (m.ticksPerRotation : ℚ))
  let s := stopCmd m
  ({ s.1 with stepPosition := newPosition, targetStepPosition := newPosition }, s.2)

/-- `Position`: `float64(stepPosition) / float64(ticksPerRotation)`. -/
def position (m : Motor) : ℚ :=
  (m.stepPosition : ℚ) / (m.ticksPerRotation : ℚ)

/-- `IsMoving`: returns `stepPosition != targetStepPosition` and a `nil`
error. -/
def isMovingE (m : Motor) : Bool × Option String :=
  (m.stepPosition != m.targetStepPosition, none)

/-- The boolean result of `IsMoving`. -/
def isMoving (m : Motor) : Bool := (isMovingE m).1

/-- `IsPowered`: calls `IsMoving`; on its (never occurring) error returns the
wrapped error with power 0.0, otherwise returns the moving flag, power 1.0
when moving and 0.0 when not, and the `nil` error. -/
def isPowered (m : Motor) : Bool × ℚ × Option String :=
  let r := isMovingE m
  match r.2 with
  | some e => (r.1, 0, some e)
  | none => (r.1, if r.1 then (1 : ℚ) else 0, none)

/-! ### Helper lemmas -/

/-- `truncQ` of an integer is that integer. -/
theorem truncQ_intCast (n : Int) : truncQ (n : ℚ) = n := by
  unfold truncQ
  split
  · exact Int.ceil_intCast n
  · exact Int.floor_intCast n

/-- `calcStepperDelay` without the intermediate `let`. -/
theorem calcStepperDelay_eq (t : Int) (r : ℚ) :
    calcStepperDelay t r =
      if truncQ (1 / (|r| * (t : ℚ) / 60) * 1000000) * 1000 < minDelayBetweenTicks
      then minDelayBetweenTicks
      else truncQ (1 / (|r| * (t : ℚ) / 60) * 1000000) * 1000 := rfl

/-- `calcStepperDelay` only depends on `|rpm|`. -/
theorem calcStepperDelay_abs (t : Int) (r : ℚ) :
    calcStepperDelay t |r| = calcStepperDelay t r := by
  rw [calcStepperDelay_eq, calcStepperDelay_eq, abs_abs]

/-- `calcStepperDelay` is even in the rpm argument. -/
theorem calcStepperDelay_neg (t : Int) (r : ℚ) :
    calcStepperDelay t (-r) = calcStepperDelay t r := by
  rw [calcStepperDelay_eq, calcStepperDelay_eq, abs_neg]

/-! ### Claims -/

/-- C2 (code_bug record): a step landing on position `-1` indexes the table at
`7 + (-1 tmod 8) = 6`, while the true-modulo index `((i mod 8) + 8) mod 8`
is `7`; the selected patterns differ, so the code does not implement the
claimed true-modulo lookup. -/
theorem nextStepSequence_not_true_modulo :
    nextStepSequence (-1) = 6 ∧ specSequenceIndex (-1) = 7 ∧
    sequencePattern (-1) ≠ specSequencePattern (-1) := by
  refine ⟨by decide, by decide, by decide⟩

/-- C3 (code_bug record): the pattern selected for step index `-1` differs
from the one selected for `-1 + 8 = 7`, and the one for `-8` differs from the
one for `0`: the sequence-index computation is not cyclic with period 8
across the sign boundary. -/
theorem sequencePattern_not_periodic :
    sequencePattern (-1) ≠ sequencePattern (-1 + 8) ∧
    sequencePattern (-8) ≠ sequencePattern (-8 + 8) := by
  refine ⟨by decide, by decide⟩

/-- C7: `GoFor` with rpm exactly zero is the same state transition as `Stop`,
performs no pin writes, and returns no error. -/
theorem goFor_zero_rpm_is_stop (m : Motor) (revolutions : ℚ) :
    goForCmd m 0 revolutions = (stopCmd m, none) := by
  simp [goForCmd]

/-- C9: `Stop` sets `targetStepPosition` to the current `stepPosition`, and
immediately afterwards `IsMoving` returns `false`. -/
theorem stop_target_eq_current_not_moving (m : Motor) :
    (stopCmd m).1.targetStepPosition = m.stepPosition ∧
    isMoving (stopCmd m).1 = false := by
  constructor
  · rfl
  · simp [isMoving, isMovingE, stopCmd]

/-- C10: in every state, `IsPowered` returns the `IsMoving` flag, power
exactly 1 when moving and exactly 0 when not, and a `nil` error. -/
theorem isPowered_moving_power_nil (m : Motor) :
    (isPowered m).1 = isMoving m ∧
    (isPowered m).2.1 = (if isMoving m then (1 : ℚ) else 0) ∧
    (isPowered m).2.2 = none := by
  refine ⟨rfl, rfl, rfl⟩

/-- C1 (counterexample): on a concrete state with `stepPosition =
targetStepPosition`, the loop iteration writes the all-off pattern but its
continue flag is `true`, not `false`: the body reaches the end of the `for`
iteration and the task keeps looping instead of terminating as claimed. -/
theorem runIteration_at_target_does_not_exit :
    (runIteration (Motor.mk 4096 0 0 0 allOff)).1.2 = [allOff] ∧
    (runIteration (Motor.mk 4096 0 0 0 allOff)).2 ≠ false := by
  refine ⟨rfl, by decide⟩

/-- C1 (amended): whenever the loop observes `stepPosition =
targetStepPosition` it writes the all-off pattern to the four pins and
continues iterating (the iteration ends without executing `return`); the task
terminates only through cancellation or a pin-write error. -/
theorem runIteration_at_target_writes_all_off (m : Motor)
    (h : m.stepPosition = m.targetStepPosition) :
    (runIteration m).1.1.pins = allOff ∧
    (runIteration m).1.2 = [allOff] ∧
    (runIteration m).2 = true := by
  simp [runIteration, doStop, setPins, h]

/-- Witness for `runIteration_at_target_writes_all_off` at a concrete state. -/
theorem runIteration_at_target_witness :
    (Motor.mk 4096 0 0 0 allOff).stepPosition = (Motor.mk 4096 0 0 0 allOff).targetStepPosition ∧
    ((runIteration (Motor.mk 4096 0 0 0 allOff)).1.1.pins = allOff ∧
     (runIteration (Motor.mk 4096 0 0 0 allOff)).1.2 = [allOff] ∧
     (runIteration (Motor.mk 4096 0 0 0 allOff)).2 = true) :=
  ⟨rfl, runIteration_at_target_writes_all_off (Motor.mk 4096 0 0 0 allOff) rfl⟩

/-- C4 (counterexample): with `ticksPerRotation = 4096` and the motor at
position 1.0 (`stepPosition = 4096`), `ResetZeroPosition` with offset 1 makes
`Position` return `-1`, not `0`, while performing no pin writes. -/
theorem resetZeroPosition_claim_false :
    position (Motor.mk 4096 4096 4096 0 allOff) = 1 ∧
    position (resetZeroPosition (Motor.mk 4096 4096 4096 0 allOff) 1).1 = -1 ∧
    position (resetZeroPosition (Motor.mk 4096 4096 4096 0 allOff) 1).1 ≠ 0 ∧
    (resetZeroPosition (Motor.mk 4096 4096 4096 0 allOff) 1).2 = [] := by
  have hceil : ⌈(-4096 : ℚ)⌉ = (-4096 : ℤ) := by
    rw [show (-4096 : ℚ) = ((-4096 : ℤ) : ℚ) by norm_num]
    exact Int.ceil_intCast _
  refine ⟨by norm_num [position], ?_, ?_, rfl⟩ <;>
    norm_num [position, resetZeroPosition, stopCmd, truncQ, hceil]

/-- C4 (amended): after the motor has reached position 1.0
(`stepPosition = ticksPerRotation`), `ResetZeroPosition` with offset 1 makes
`Position` return `-1` (in general `-offset`) immediately, and performs no
pin writes. -/
theorem resetZeroPosition_offset_one (m : Motor)
    (ht : 0 < m.ticksPerRotation) (hs : m.stepPosition = m.ticksPerRotation) :
    position (resetZeroPosition m 1).1 = -1 ∧
    (resetZeroPosition m 1).2 = [] := by
  have htQ : ((m.ticksPerRotation : Int) : ℚ) ≠ 0 := by
    exact_mod_cast ht.ne'
  constructor
  · have harg : (-1 : ℚ) * 1 * (m.ticksPerRotation : ℚ) = ((-m.ticksPerRotation : Int) : ℚ) := by
      push_cast
      ring
    have htr : truncQ ((-1 : ℚ) * 1 * (m.ticksPerRotation : ℚ)) = -m.ticksPerRotation := by
      rw [harg, truncQ_intCast]
    simp only [resetZeroPosition, stopCmd, position, htr]
    push_cast
    rw [neg_div, div_self htQ]
  · rfl

/-- Witness for `resetZeroPosition_offset_one` at a concrete motor state. -/
theorem resetZeroPosition_offset_one_witness :
    0 < (Motor.mk 4096 4096 4096 0 allOff).ticksPerRotation ∧
    (Motor.mk 4096 4096 4096 0 allOff).stepPosition =
      (Motor.mk 4096 4096 4096 0 allOff).ticksPerRotation ∧
    (position (resetZeroPosition (Motor.mk 4096 4096 4096 0 allOff) 1).1 = -1 ∧
     (resetZeroPosition (Motor.mk 4096 4096 4096 0 allOff) 1).2 = []) :=
  ⟨by decide, rfl,
   resetZeroPosition_offset_one (Motor.mk 4096 4096 4096 0 allOff) (by decide) rfl⟩

/-- C5: for every nonzero rpm, `goMath` returns the target
`stepPosition + d * |revolutions| * ticksPerRotation` (truncated toward
zero) with `d = specDirection revolutions rpm` (`+1` when the sign bits
agree, `-1` otherwise), and a delay computed from `|rpm|` alone. -/
theorem goMath_direction_target_delay (m : Motor) (rpm revolutions : ℚ)
    (h : rpm ≠ 0) :
    (goMath m rpm revolutions).1 =
      m.stepPosition +
        truncQ ((specDirection revolutions rpm : ℚ) * |revolutions| * (m.ticksPerRotation : ℚ)) ∧
    (goMath m rpm revolutions).2 = calcStepperDelay m.ticksPerRotation |rpm| := by
  cases hrev : decide (revolutions < 0) <;> cases hrpm : decide (rpm < 0) <;>
    simp [goMath, specDirection, hrev, hrpm, calcStepperDelay_neg, calcStepperDelay_abs]

/-- Witness for `goMath_direction_target_delay` at a concrete input. -/
theorem goMath_direction_target_delay_witness :
    (10 : ℚ) ≠ 0 ∧
    ((goMath (Motor.mk 4096 0 0 0 allOff) 10 (-1)).1 =
      (Motor.mk 4096 0 0 0 allOff).stepPosition +
        truncQ ((specDirection (-1) 10 : ℚ) * |(-1 : ℚ)| *
          ((Motor.mk 4096 0 0 0 allOff).ticksPerRotation : ℚ)) ∧
     (goMath (Motor.mk 4096 0 0 0 allOff) 10 (-1)).2 =
      calcStepperDelay (Motor.mk 4096 0 0 0 allOff).ticksPerRotation |(10 : ℚ)|) :=
  ⟨by norm_num,
   goMath_direction_target_delay (Motor.mk 4096 0 0 0 allOff) 10 (-1) (by norm_num)⟩

/-- C8: for a positive tick count and nonzero rpms, `calcStepperDelay` is
monotonically non-increasing in `|rpm|`, and is never below the
100-microsecond floor `minDelayBetweenTicks` (falling below clamps to the
floor; no error is produced). -/
theorem calcStepperDelay_monotone_and_floored (t : Int) (r1 r2 : ℚ)
    (ht : 0 < t) (h1 : r1 ≠ 0) (h2 : r2 ≠ 0) (h12 : |r1| ≤ |r2|) :
    calcStepperDelay t r2 ≤ calcStepperDelay t r1 ∧
    minDelayBetweenTicks ≤ calcStepperDelay t r1 ∧
    minDelayBetweenTicks ≤ calcStepperDelay t r2 := by
  have htQ : (0 : ℚ) < (t : ℚ) := by exact_mod_cast ht
  have ha1 : (0 : ℚ) < |r1| := abs_pos.mpr h1
  have hx1 : (0 : ℚ) < |r1| * (t : ℚ) / 60 := by positivity
  have hxle : |r1| * (t : ℚ) / 60 ≤ |r2| * (t : ℚ) / 60 := by gcongr
  have hinv : 1 / (|r2| * (t : ℚ) / 60) ≤ 1 / (|r1| * (t : ℚ) / 60) :=
    one_div_le_one_div_of_le hx1 hxle
  have hmul : 1 / (|r2| * (t : ℚ) / 60) * 1000000 ≤ 1 / (|r1| * (t : ℚ) / 60) * 1000000 := by
    gcongr
  have hnn1 : (0 : ℚ) ≤ 1 / (|r1| * (t : ℚ) / 60) * 1000000 := by positivity
  have hnn2 : (0 : ℚ) ≤ 1 / (|r2| * (t : ℚ) / 60) * 1000000 := by
    have ha2 : (0 : ℚ) < |r2| := abs_pos.mpr h2
    positivity
  have ht1 : truncQ (1 / (|r1| * (t : ℚ) / 60) * 1000000) =
      ⌊1 / (|r1| * (t : ℚ) / 60) * 1000000⌋ := by
    unfold truncQ
    rw [if_neg (not_lt.mpr hnn1)]
  have ht2 : truncQ (1 / (|r2| * (t : ℚ) / 60) * 1000000) =
      ⌊1 / (|r2| * (t : ℚ) / 60) * 1000000⌋ := by
    unfold truncQ
    rw [if_neg (not_lt.mpr hnn2)]
  have hfl : truncQ (1 / (|r2| * (t : ℚ) / 60) * 1000000) ≤
      truncQ (1 / (|r1| * (t : ℚ) / 60) * 1000000) := by
    rw [ht1, ht2]
    exact Int.floor_mono hmul
  rw [calcStepperDelay_eq, calcStepperDelay_eq]
  simp only [minDelayBetweenTicks]
  split_ifs <;> omega

/-- Witness for `calcStepperDelay_monotone_and_floored` at concrete inputs. -/
theorem calcStepperDelay_monotone_witness :
    (0 : Int) < 4096 ∧ (10 : ℚ) ≠ 0 ∧ (15 : ℚ) ≠ 0 ∧ |(10 : ℚ)| ≤ |(15 : ℚ)| ∧
    (calcStepperDelay 4096 15 ≤ calcStepperDelay 4096 10 ∧
     minDelayBetweenTicks ≤ calcStepperDelay 4096 10 ∧
     minDelayBetweenTicks ≤ calcStepperDelay 4096 15) :=
  ⟨by decide, by norm_num, by norm_num, by norm_num,
   calcStepperDelay_monotone_and_floored 4096 10 15 (by decide) (by norm_num)
     (by norm_num) (by norm_num)⟩

end Uln28byj48
